import Mathlib

/-!
Shallow embedding of `pdf_on_submit/attach_pdf.py`.

The module is glue over a host framework (frappe): every framework call is
modelled as a field of an `Env` record, and each function of the module is
translated to a Lean function that returns the list of observable framework
effects (`Event`s) it performs, in order, together with its result.  An
exception that escapes a function is modelled by the `Outcome.raised`
constructor; an exception raised by a framework call is modelled by the
corresponding `Env` field returning an error value (`Except.error` or one of
the error constructors of `RenderResult`).
-/

namespace PdfOnSubmit

/-- A host-framework document record; the module only reads `doctype` and
`name` of the documents it handles. -/
structure Doc where
  doctype : String
  name : String
deriving DecidableEq, Repr

/-- One row of the child table `enabled_for` of the single doctype
`PDF on Submit Settings`.  `target_folder` is `Option` because the code reads
it with `getattr(enabled_doctype, 'target_folder', 'Home')`. -/
structure EnabledDoctype where
  document_type : String
  auto_name : Option String
  print_format : Option String
  letter_head : Option String
  target_folder : Option String
deriving DecidableEq, Repr

/-- The `PDF on Submit Settings` single document: its `enabled_for` child
table. -/
structure Settings where
  enabled_for : List EnabledDoctype
deriving DecidableEq, Repr

/-- The fields of the `File` document that `save_and_attach` sets before
calling `file.save()`. -/
structure FileDoc where
  file_name : String
  content : List Nat
  folder : String
  is_private : Nat
  attached_to_doctype : String
  attached_to_name : String
deriving DecidableEq, Repr

/-- Result of `PrintFormatGenerator(print_format, doc, letter_head).render_pdf()`:
it can return PDF bytes, return `None`, raise a `TypeError`, or raise any
other exception. -/
inductive RenderResult where
  | okSome (pdf : List Nat)
  | okNone
  | typeError (msg : String)
  | otherError (msg : String)
deriving DecidableEq, Repr

/-- Observable framework effects, in program order. -/
inductive Event where
  | fetchSettings
  | renderPdf (print_format : Option String) (doc : Doc) (letter_head : Option String)
  | getPrint (doctype name : String) (print_format letterhead : Option String)
  | getPdf (html : String)
  | createNewFolder (folder parent : String)
  | saveFile (file : FileDoc)
  | publishProgress (percent : Nat) (doctype docname : String)
  | logError (msg : String)
  | log (msg : String)
  | msgprint (msg : String)
deriving DecidableEq, Repr

/-- Whether a run of `execute` returns normally or lets an exception
propagate to the caller. -/
inductive Outcome where
  | done
  | raised (msg : String)
deriving DecidableEq, Repr

/-- The host framework, as seen by the module: each field models one
framework call the module makes. -/
structure Env where
  settings : Settings
  render : Option String → Doc → Option String → RenderResult
  print_format_builder_beta : Option String → Bool
  get_print : String → String → Option String → Option String → Except String String
  get_pdf : String → Except String (List Nat)
  get_doc : String → String → Doc
  file_exists : String → Bool
  installed_apps : List String
  format_autoname : String → Doc → String
  attach_xml_to_pdf : String → List Nat → Except String (List Nat)

/-- Python truthiness of an optional string: `None` and `""` are falsy. -/
def pyTruthy : Option String → Bool
  | none => false
  | some s => s != ""

/-- Python `s.replace("/", "-")`: with a one-character pattern and
replacement this is a character-wise map. -/
def pyReplaceSlashDash (s : String) : String :=
  ⟨s.data.map (fun c => if c = '/' then '-' else c)⟩

/-- `set_name_from_naming_options(autoname, doc)`: lower-case the option; if
it starts with `format:` delegate to the framework naming helper
`_format_autoname`, else fall back to `doc.name`. -/
def set_name_from_naming_options (env : Env) (autoname : String) (doc : Doc) : String :=
  if autoname.toLower.startsWith "format:" then env.format_autoname autoname doc
  else doc.name

/-- The base name `save_and_attach` chooses before replacing `/` and adding
the `.pdf` extension: the autoname-derived name of the re-fetched document
when `auto_name` is truthy, else `to_name`. -/
def chosen_base_name (env : Env) (to_doctype to_name : String)
    (auto_name : Option String) : String :=
  if pyTruthy auto_name then
    set_name_from_naming_options env (auto_name.getD "") (env.get_doc to_doctype to_name)
  else to_name

/-- The `file_name` that `save_and_attach` computes: the chosen base name
with every `/` replaced by `-`, followed by `.pdf`. -/
def save_file_name (env : Env) (to_doctype to_name : String)
    (auto_name : Option String) : String :=
  pyReplaceSlashDash (chosen_base_name env to_doctype to_name auto_name) ++ ".pdf"

/-- The `File` document `save_and_attach` builds (`frappe.new_doc("File")`
plus the field assignments before `file.save()`). -/
def builtFile (env : Env) (content : List Nat) (to_doctype to_name folder : String)
    (auto_name : Option String) : FileDoc :=
  { file_name := save_file_name env to_doctype to_name auto_name
    content := content
    folder := folder
    is_private := 0
    attached_to_doctype := to_doctype
    attached_to_name := to_name }

/-- `save_and_attach(content, to_doctype, to_name, folder, auto_name)`. -/
def save_and_attach (env : Env) (content : List Nat) (to_doctype to_name folder : String)
    (auto_name : Option String) : List Event :=
  [Event.log ("Saving PDF as " ++ save_file_name env to_doctype to_name auto_name
      ++ " in folder " ++ folder),
   Event.saveFile (builtFile env content to_doctype to_name folder auto_name),
   Event.log ("File saved: " ++ save_file_name env to_doctype to_name auto_name)]

/-- `attach_pdf(doc, event)`: the on-submit hook handler. -/
def attach_pdf (env : Env) (doc : Doc) : List Event :=
  Event.fetchSettings ::
    match env.settings.enabled_for.filter (fun ed => ed.document_type == doc.doctype) with
    | [] => [Event.logError ("No enabled doctype found for " ++ doc.doctype)]
    | enabled_doctype :: _ =>
      let auto_name := enabled_doctype.auto_name
      let print_format := enabled_doctype.print_format
      let letter_head := enabled_doctype.letter_head
      let target_folder := enabled_doctype.target_folder.getD "Home"
      Event.log ("Generating PDF for " ++ doc.doctype ++ " " ++ doc.name) ::
      Event.renderPdf print_format doc letter_head ::
      match env.render print_format doc letter_head with
      | RenderResult.okSome pdf_data =>
          Event.log ("PDF data generated successfully for " ++ doc.name) ::
          (save_and_attach env pdf_data doc.doctype doc.name target_folder auto_name ++
           [Event.log ("PDF saved and attached successfully for " ++ doc.name)])
      | RenderResult.okNone => [Event.logError "PDF data is None. Skipping attachment."]
      | RenderResult.typeError e => [Event.logError ("Error generating PDF: " ++ e)]
      | RenderResult.otherError e =>
          [Event.logError ("Unexpected error generating PDF: " ++ e)]

/-- `create_folder(folder, parent)`: make sure the folder exists and return
its name. -/
def create_folder (env : Env) (folder parent : String) : List Event × String :=
  ((if env.file_exists (parent ++ "/" ++ folder) then []
    else [Event.createNewFolder folder parent]),
   parent ++ "/" ++ folder)

/-- `get_pdf_data(doctype, name, print_format, letterhead)`:
Document -> HTML -> PDF. -/
def get_pdf_data (env : Env) (doctype name : String)
    (print_format letterhead : Option String) : List Event × Except String (List Nat) :=
  let t0 := [Event.log ("Generating HTML for " ++ doctype ++ " " ++ name),
             Event.getPrint doctype name print_format letterhead]
  match env.get_print doctype name print_format letterhead with
  | Except.error e => (t0, Except.error e)
  | Except.ok html =>
    let t1 := t0 ++ [Event.log ("HTML generated for " ++ doctype ++ " " ++ name),
                     Event.getPdf html]
    match env.get_pdf html with
    | Except.error e => (t1, Except.error e)
    | Except.ok pdf =>
        (t1 ++ [Event.log ("PDF generated for " ++ doctype ++ " " ++ name)], Except.ok pdf)

/-- The Sales-Invoice e-invoice post-processing step of `execute`: when the
target is a Sales Invoice and `eu_einvoice` is installed, try
`attach_xml_to_pdf`; on any exception, optionally `msgprint` and always log,
keeping the unmodified PDF. -/
def einvoiceStep (env : Env) (doctype name : String) (show_progress : Bool)
    (pdf_data : List Nat) : List Event × List Nat :=
  if doctype == "Sales Invoice" && env.installed_apps.contains "eu_einvoice" then
    match env.attach_xml_to_pdf name pdf_data with
    | Except.ok p => ([], p)
    | Except.error _ =>
        ((if show_progress then
            [Event.msgprint ("Failed to attach XML to PDF for Sales Invoice " ++ name)]
          else []) ++
         [Event.logError ("Failed to attach XML to PDF for Sales Invoice " ++ name)],
         pdf_data)
  else ([], pdf_data)

/-- The tail of `execute` after `pdf_data` has been obtained: e-invoice
post-processing, 66% progress, `save_and_attach`, final log, 100% progress. -/
def executeAfterPdf (env : Env) (doctype name : String) (show_progress : Bool)
    (auto_name : Option String) (target_folder : String) (pdf_data : List Nat) :
    List Event :=
  (einvoiceStep env doctype name show_progress pdf_data).1 ++
  (if show_progress then [Event.publishProgress 66 doctype name] else []) ++
  save_and_attach env (einvoiceStep env doctype name show_progress pdf_data).2
    doctype name target_folder auto_name ++
  [Event.log ("PDF saved and attached successfully for " ++ name)] ++
  (if show_progress then [Event.publishProgress 100 doctype name] else [])

/-- `execute(doctype, name, title, lang, show_progress, auto_name,
print_format, letter_head)`: the background-queue entry point.  `lang` only
selects the translation context (`print_language`), which has no observable
effect in this model. -/
def execute (env : Env) (doctype name : String) (title lang : Option String)
    (show_progress : Bool) (auto_name print_format letter_head : Option String) :
    List Event × Outcome :=
  let t0 := if show_progress then [Event.publishProgress 0 doctype name] else []
  let df := create_folder env doctype "Home"
  let tf : List Event × Option String :=
    if pyTruthy title then
      ((create_folder env (title.getD "") df.2).1, some (create_folder env (title.getD "") df.2).2)
    else ([], none)
  let target_folder := tf.2.getD df.2
  let t1 := t0 ++ df.1 ++ tf.1 ++
    (if show_progress then [Event.publishProgress 33 doctype name] else [])
  if env.print_format_builder_beta print_format then
    let doc := env.get_doc doctype name
    let t2 := t1 ++ [Event.renderPdf print_format doc letter_head]
    match env.render print_format doc letter_head with
    | RenderResult.okSome pdf_data =>
        (t2 ++ [Event.log ("PDF data generated successfully for " ++ name)] ++
           executeAfterPdf env doctype name show_progress auto_name target_folder pdf_data,
         Outcome.done)
    | RenderResult.okNone =>
        (t2 ++ [Event.logError "PDF data is None. Skipping attachment."], Outcome.done)
    | RenderResult.typeError e =>
        (t2 ++ [Event.logError ("Error generating PDF: " ++ e)], Outcome.done)
    | RenderResult.otherError e => (t2, Outcome.raised e)
  else
    match (get_pdf_data env doctype name print_format letter_head).2 with
    | Except.error e => (t1 ++ (get_pdf_data env doctype name print_format letter_head).1,
                         Outcome.raised e)
    | Except.ok pdf_data =>
        (t1 ++ (get_pdf_data env doctype name print_format letter_head).1 ++
           executeAfterPdf env doctype name show_progress auto_name target_folder pdf_data,
         Outcome.done)

/-- The target folder a run of `execute` passes to `save_and_attach`:
`Home/<doctype>`, extended by `/<title>` when `title` is truthy. -/
def execTargetFolder (env : Env) (doctype : String) (title : Option String) : String :=
  if pyTruthy title then ("Home" ++ "/" ++ doctype) ++ "/" ++ title.getD ""
  else "Home" ++ "/" ++ doctype

/-- How many folders a run of `execute` actually creates: one per
`create_folder` call whose folder does not exist yet. -/
def execFolderCount (env : Env) (doctype : String) (title : Option String) : Nat :=
  (if env.file_exists ("Home" ++ "/" ++ doctype) then 0 else 1) +
  (if pyTruthy title then
    (if env.file_exists (("Home" ++ "/" ++ doctype) ++ "/" ++ title.getD "") then 0 else 1)
   else 0)

/-- The `File` documents saved in a trace, in order. -/
def savedFiles (tr : List Event) : List FileDoc :=
  tr.filterMap (fun e => match e with | Event.saveFile f => some f | _ => none)

/-- The percent values of the realtime progress events of a trace, in
order. -/
def progressPercents (tr : List Event) : List Nat :=
  tr.filterMap (fun e => match e with | Event.publishProgress p _ _ => some p | _ => none)

/-- The major host-service steps the spec talks about. -/
inductive Step where
  | settings
  | folder
  | render
  | save
deriving DecidableEq, Repr

/-- Projection of a trace onto the major steps: fetching settings, creating
a folder, rendering (either renderer entry point), and saving the file. -/
def majorSteps (tr : List Event) : List Step :=
  tr.filterMap (fun e => match e with
    | Event.fetchSettings => some Step.settings
    | Event.createNewFolder _ _ => some Step.folder
    | Event.renderPdf _ _ _ => some Step.render
    | Event.getPrint _ _ _ _ => some Step.render
    | Event.saveFile _ => some Step.save
    | _ => none)

/-- A sample `enabled_for` row used in concrete evaluations. -/
def edW : EnabledDoctype :=
  { document_type := "DT"
    auto_name := none
    print_format := some "PF"
    letter_head := none
    target_folder := none }

/-- A sample document of the enabled doctype. -/
def docW : Doc := { doctype := "DT", name := "D1" }

/-- A happy-path host: the renderer succeeds with bytes `[1, 2, 3]`, the
print format uses the new builder, and no folders exist yet. -/
def envW : Env :=
  { settings := { enabled_for := [edW] }
    render := fun _ _ _ => RenderResult.okSome [1, 2, 3]
    print_format_builder_beta := fun _ => true
    get_print := fun _ _ _ _ => Except.ok "html"
    get_pdf := fun _ => Except.ok [9]
    get_doc := fun dt nm => { doctype := dt, name := nm }
    file_exists := fun _ => false
    installed_apps := []
    format_autoname := fun _ d => d.name
    attach_xml_to_pdf := fun _ p => Except.ok p }

/-- A host whose renderer raises `TypeError`. -/
def envTE : Env :=
  { envW with render := fun _ _ _ => RenderResult.typeError "boom" }

/-- A host whose renderer raises an exception that is not a `TypeError`. -/
def envOE : Env :=
  { envW with render := fun _ _ _ => RenderResult.otherError "boom" }

/-- A host where the print format does not use the new builder, and where
the weasyprint renderer and the wkhtmltopdf pipeline disagree: the
`PrintFormatGenerator` renderer yields `[1]` while `get_pdf` of the
`get_print` HTML yields `[2]`. -/
def envC5 : Env :=
  { envW with
    render := fun _ _ _ => RenderResult.okSome [1]
    print_format_builder_beta := fun _ => false
    get_pdf := fun _ => Except.ok [2]
    file_exists := fun _ => true }

/-! Projection lemmas: `savedFiles`, `progressPercents` and `majorSteps`
are list homomorphisms, and their values on each building block of the
traces. -/

@[simp] theorem savedFiles_nil : savedFiles [] = [] := rfl

@[simp] theorem savedFiles_cons (e : Event) (tr : List Event) :
    savedFiles (e :: tr) =
      (match e with | Event.saveFile f => [f] | _ => []) ++ savedFiles tr := by
  cases e <;> rfl

@[simp] theorem savedFiles_append (a b : List Event) :
    savedFiles (a ++ b) = savedFiles a ++ savedFiles b := by
  simp [savedFiles]

@[simp] theorem progressPercents_nil : progressPercents [] = [] := rfl

@[simp] theorem progressPercents_cons (e : Event) (tr : List Event) :
    progressPercents (e :: tr) =
      (match e with | Event.publishProgress p _ _ => [p] | _ => []) ++ progressPercents tr := by
  cases e <;> rfl

@[simp] theorem progressPercents_append (a b : List Event) :
    progressPercents (a ++ b) = progressPercents a ++ progressPercents b := by
  simp [progressPercents]

@[simp] theorem majorSteps_nil : majorSteps [] = [] := rfl

@[simp] theorem majorSteps_cons (e : Event) (tr : List Event) :
    majorSteps (e :: tr) =
      (match e with
        | Event.fetchSettings => [Step.settings]
        | Event.createNewFolder _ _ => [Step.folder]
        | Event.renderPdf _ _ _ => [Step.render]
        | Event.getPrint _ _ _ _ => [Step.render]
        | Event.saveFile _ => [Step.save]
        | _ => []) ++ majorSteps tr := by
  cases e <;> rfl

@[simp] theorem majorSteps_append (a b : List Event) :
    majorSteps (a ++ b) = majorSteps a ++ majorSteps b := by
  simp [majorSteps]

theorem mem_savedFiles {f : FileDoc} {tr : List Event} :
    f ∈ savedFiles tr ↔ Event.saveFile f ∈ tr := by
  induction tr with
  | nil => simp
  | cons e tr ih => cases e <;> simp [ih]

@[simp] theorem create_folder_snd (env : Env) (folder parent : String) :
    (create_folder env folder parent).2 = parent ++ "/" ++ folder := rfl

@[simp] theorem savedFiles_create_folder (env : Env) (folder parent : String) :
    savedFiles (create_folder env folder parent).1 = [] := by
  unfold create_folder
  split <;> rfl

@[simp] theorem progressPercents_create_folder (env : Env) (folder parent : String) :
    progressPercents (create_folder env folder parent).1 = [] := by
  unfold create_folder
  split <;> rfl

@[simp] theorem majorSteps_create_folder (env : Env) (folder parent : String) :
    majorSteps (create_folder env folder parent).1 =
      if env.file_exists (parent ++ "/" ++ folder) then [] else [Step.folder] := by
  unfold create_folder
  split <;> simp_all

@[simp] theorem savedFiles_save_and_attach (env : Env) (content : List Nat)
    (to_doctype to_name folder : String) (auto_name : Option String) :
    savedFiles (save_and_attach env content to_doctype to_name folder auto_name) =
      [builtFile env content to_doctype to_name folder auto_name] := rfl

@[simp] theorem progressPercents_save_and_attach (env : Env) (content : List Nat)
    (to_doctype to_name folder : String) (auto_name : Option String) :
    progressPercents (save_and_attach env content to_doctype to_name folder auto_name) = [] := rfl

@[simp] theorem majorSteps_save_and_attach (env : Env) (content : List Nat)
    (to_doctype to_name folder : String) (auto_name : Option String) :
    majorSteps (save_and_attach env content to_doctype to_name folder auto_name) =
      [Step.save] := rfl

@[simp] theorem savedFiles_get_pdf_data (env : Env) (dt nm : String)
    (pf lh : Option String) :
    savedFiles (get_pdf_data env dt nm pf lh).1 = [] := by
  rcases hp : env.get_print dt nm pf lh with e | html <;> simp [get_pdf_data, hp]
  rcases hg : env.get_pdf html with e | pdf <;> simp [hg]

@[simp] theorem progressPercents_get_pdf_data (env : Env) (dt nm : String)
    (pf lh : Option String) :
    progressPercents (get_pdf_data env dt nm pf lh).1 = [] := by
  rcases hp : env.get_print dt nm pf lh with e | html <;> simp [get_pdf_data, hp]
  rcases hg : env.get_pdf html with e | pdf <;> simp [hg]

@[simp] theorem majorSteps_get_pdf_data (env : Env) (dt nm : String)
    (pf lh : Option String) :
    majorSteps (get_pdf_data env dt nm pf lh).1 = [Step.render] := by
  rcases hp : env.get_print dt nm pf lh with e | html <;> simp [get_pdf_data, hp]
  rcases hg : env.get_pdf html with e | pdf <;> simp [hg]

@[simp] theorem savedFiles_einvoiceStep (env : Env) (dt nm : String) (sp : Bool)
    (pdf : List Nat) :
    savedFiles (einvoiceStep env dt nm sp pdf).1 = [] := by
  unfold einvoiceStep
  split
  · split
    · rfl
    · cases sp <;> rfl
  · rfl

@[simp] theorem progressPercents_einvoiceStep (env : Env) (dt nm : String) (sp : Bool)
    (pdf : List Nat) :
    progressPercents (einvoiceStep env dt nm sp pdf).1 = [] := by
  unfold einvoiceStep
  split
  · split
    · rfl
    · cases sp <;> rfl
  · rfl

@[simp] theorem majorSteps_einvoiceStep (env : Env) (dt nm : String) (sp : Bool)
    (pdf : List Nat) :
    majorSteps (einvoiceStep env dt nm sp pdf).1 = [] := by
  unfold einvoiceStep
  split
  · split
    · rfl
    · cases sp <;> rfl
  · rfl

theorem einvoiceStep_snd_off (env : Env) (dt nm : String) (sp : Bool) (pdf : List Nat)
    (h : (dt == "Sales Invoice" && env.installed_apps.contains "eu_einvoice") = false) :
    (einvoiceStep env dt nm sp pdf).2 = pdf := by
  unfold einvoiceStep
  rw [h]
  simp

@[simp] theorem savedFiles_executeAfterPdf (env : Env) (dt nm : String) (sp : Bool)
    (an : Option String) (fo : String) (pdf : List Nat) :
    savedFiles (executeAfterPdf env dt nm sp an fo pdf) =
      [builtFile env (einvoiceStep env dt nm sp pdf).2 dt nm fo an] := by
  cases sp <;> simp [executeAfterPdf]

@[simp] theorem progressPercents_executeAfterPdf (env : Env) (dt nm : String) (sp : Bool)
    (an : Option String) (fo : String) (pdf : List Nat) :
    progressPercents (executeAfterPdf env dt nm sp an fo pdf) =
      if sp then [66, 100] else [] := by
  cases sp <;> simp [executeAfterPdf]

@[simp] theorem majorSteps_executeAfterPdf (env : Env) (dt nm : String) (sp : Bool)
    (an : Option String) (fo : String) (pdf : List Nat) :
    majorSteps (executeAfterPdf env dt nm sp an fo pdf) = [Step.save] := by
  cases sp <;> simp [executeAfterPdf]

@[simp] theorem savedFiles_ite (c : Prop) [Decidable c] (a b : List Event) :
    savedFiles (if c then a else b) = if c then savedFiles a else savedFiles b := by
  split <;> rfl

@[simp] theorem progressPercents_ite (c : Prop) [Decidable c] (a b : List Event) :
    progressPercents (if c then a else b) =
      if c then progressPercents a else progressPercents b := by
  split <;> rfl

@[simp] theorem majorSteps_ite (c : Prop) [Decidable c] (a b : List Event) :
    majorSteps (if c then a else b) = if c then majorSteps a else majorSteps b := by
  split <;> rfl

theorem replicate_step_zero : List.replicate 0 Step.folder = [] := rfl

theorem replicate_step_one : List.replicate 1 Step.folder = [Step.folder] := rfl

theorem replicate_step_two : List.replicate 2 Step.folder = [Step.folder, Step.folder] := rfl

/-- Case analysis on a run of `execute`: either no `File` is saved, or
exactly one `File` is saved, built from the rendered PDF (post-processed by
the e-invoice step), attached under the run's target folder, with the full
progress sequence published (when `show_progress`) and the major steps in
the order folders-render-save. -/
theorem execute_run_cases (env : Env) (dt nm : String) (title lang : Option String)
    (sp : Bool) (an pf lh : Option String) :
    savedFiles (execute env dt nm title lang sp an pf lh).1 = [] ∨
    ∃ pdf,
      savedFiles (execute env dt nm title lang sp an pf lh).1 =
        [builtFile env (einvoiceStep env dt nm sp pdf).2 dt nm
          (execTargetFolder env dt title) an] ∧
      progressPercents (execute env dt nm title lang sp an pf lh).1 =
        (if sp then [0, 33, 66, 100] else []) ∧
      majorSteps (execute env dt nm title lang sp an pf lh).1 =
        List.replicate (execFolderCount env dt title) Step.folder ++
          [Step.render, Step.save] ∧
      ((env.print_format_builder_beta pf = true ∧
        env.render pf (env.get_doc dt nm) lh = RenderResult.okSome pdf) ∨
       (env.print_format_builder_beta pf = false ∧
        (get_pdf_data env dt nm pf lh).2 = Except.ok pdf)) := by
  cases hb : env.print_format_builder_beta pf
  · rcases hg : (get_pdf_data env dt nm pf lh).2 with e | pdf
    · left
      cases ht : pyTruthy title <;> simp [execute, hb, hg, ht]
    · right
      refine ⟨pdf, ?_, ?_, ?_, Or.inr ⟨rfl, rfl⟩⟩
      · cases ht : pyTruthy title <;>
          simp [execute, hb, hg, ht, execTargetFolder]
      · cases ht : pyTruthy title <;> cases sp <;>
          simp [execute, hb, hg, ht]
      · cases ht : pyTruthy title <;>
          cases he1 : env.file_exists ("Home/" ++ dt) <;>
          cases he2 : env.file_exists ("Home/" ++ dt ++ "/" ++ title.getD "") <;>
          simp [execute, hb, hg, ht, he1, he2, execFolderCount,
            replicate_step_zero, replicate_step_one, replicate_step_two]
  · rcases hr : env.render pf (env.get_doc dt nm) lh with pdf | _ | e | e
    · right
      refine ⟨pdf, ?_, ?_, ?_, Or.inl ⟨rfl, rfl⟩⟩
      · cases ht : pyTruthy title <;>
          simp [execute, hb, hr, ht, execTargetFolder]
      · cases ht : pyTruthy title <;> cases sp <;>
          simp [execute, hb, hr, ht]
      · cases ht : pyTruthy title <;>
          cases he1 : env.file_exists ("Home/" ++ dt) <;>
          cases he2 : env.file_exists ("Home/" ++ dt ++ "/" ++ title.getD "") <;>
          simp [execute, hb, hr, ht, he1, he2, execFolderCount,
            replicate_step_zero, replicate_step_one, replicate_step_two]
    · left
      cases ht : pyTruthy title <;> simp [execute, hb, hr, ht]
    · left
      cases ht : pyTruthy title <;> simp [execute, hb, hr, ht]
    · left
      cases ht : pyTruthy title <;> simp [execute, hb, hr, ht]

/-- With `show_progress = False`, `execute` publishes no progress event on
any path. -/
theorem execute_progress_false (env : Env) (dt nm : String) (title lang : Option String)
    (an pf lh : Option String) :
    progressPercents (execute env dt nm title lang false an pf lh).1 = [] := by
  cases hb : env.print_format_builder_beta pf
  · rcases hg : (get_pdf_data env dt nm pf lh).2 with e | pdf <;>
      cases ht : pyTruthy title <;> simp [execute, hb, hg, ht]
  · rcases hr : env.render pf (env.get_doc dt nm) lh with pdf | _ | e | e <;>
      cases ht : pyTruthy title <;> simp [execute, hb, hr, ht]

/-- A `TypeError` raised by the beta renderer inside `execute` is caught:
the run returns normally, saves nothing, and logs the error. -/
theorem execute_typeError_caught (env : Env) (dt nm : String) (title lang : Option String)
    (sp : Bool) (an pf lh : Option String) (e : String)
    (hb : env.print_format_builder_beta pf = true)
    (hr : env.render pf (env.get_doc dt nm) lh = RenderResult.typeError e) :
    (execute env dt nm title lang sp an pf lh).2 = Outcome.done ∧
    savedFiles (execute env dt nm title lang sp an pf lh).1 = [] ∧
    Event.logError ("Error generating PDF: " ++ e) ∈
      (execute env dt nm title lang sp an pf lh).1 := by
  refine ⟨?_, ?_, ?_⟩ <;>
    cases ht : pyTruthy title <;> simp [execute, hb, hr, ht]

theorem pyReplaceSlashDash_no_slash (s : String) :
    '/' ∉ (pyReplaceSlashDash s).data := by
  intro h
  rcases List.mem_map.mp h with ⟨c, _, hc⟩
  by_cases hc' : c = '/' <;> simp [hc'] at hc

theorem execFolderCount_le_two (env : Env) (dt : String) (title : Option String) :
    execFolderCount env dt title ≤ 2 := by
  unfold execFolderCount
  cases h1 : env.file_exists ("Home" ++ "/" ++ dt) <;>
  cases h2 : pyTruthy title <;>
  cases h3 : env.file_exists (("Home" ++ "/" ++ dt) ++ "/" ++ title.getD "") <;>
  simp [h1, h2, h3]

/-- In `attach_pdf`, both `except` clauses catch a renderer exception: the
hook logs the error and saves nothing. -/
theorem attach_pdf_render_error_caught (env : Env) (doc : Doc)
    (enabled_doctype : EnabledDoctype) (rest : List EnabledDoctype) (e : String)
    (h1 : env.settings.enabled_for.filter (fun ed => ed.document_type == doc.doctype) =
      enabled_doctype :: rest)
    (h2 : env.render enabled_doctype.print_format doc enabled_doctype.letter_head =
        RenderResult.typeError e ∨
      env.render enabled_doctype.print_format doc enabled_doctype.letter_head =
        RenderResult.otherError e) :
    savedFiles (attach_pdf env doc) = [] ∧
    ∃ m, Event.logError m ∈ attach_pdf env doc := by
  rcases h2 with h2 | h2
  · exact ⟨by simp [attach_pdf, h1, h2],
      "Error generating PDF: " ++ e, by simp [attach_pdf, h1, h2]⟩
  · exact ⟨by simp [attach_pdf, h1, h2],
      "Unexpected error generating PDF: " ++ e, by simp [attach_pdf, h1, h2]⟩

/-- C1: for every document whose doctype has an enabled entry in the
`PDF on Submit Settings` and whose print-format rendering returns PDF data
that is not `None`, the on-submit handler `attach_pdf` creates a `File`
record containing that PDF and attaches it to the originating record: the
created file's `attached_to_doctype` equals `doc.doctype` and its
`attached_to_name` equals `doc.name`. -/
theorem attach_pdf_attaches_rendered_pdf (env : Env) (doc : Doc)
    (enabled_doctype : EnabledDoctype) (rest : List EnabledDoctype) (pdf : List Nat)
    (h1 : env.settings.enabled_for.filter (fun ed => ed.document_type == doc.doctype) =
      enabled_doctype :: rest)
    (h2 : env.render enabled_doctype.print_format doc enabled_doctype.letter_head =
      RenderResult.okSome pdf) :
    ∃ f, Event.saveFile f ∈ attach_pdf env doc ∧ f.content = pdf ∧
      f.attached_to_doctype = doc.doctype ∧ f.attached_to_name = doc.name := by
  refine ⟨builtFile env pdf doc.doctype doc.name
      (enabled_doctype.target_folder.getD "Home") enabled_doctype.auto_name,
    ?_, rfl, rfl, rfl⟩
  simp [attach_pdf, h1, h2, save_and_attach]

/-- Witness for C1 at a concrete host and document. -/
theorem attach_pdf_attaches_rendered_pdf_witness :
    ∃ f, Event.saveFile f ∈ attach_pdf envW docW ∧ f.content = [1, 2, 3] ∧
      f.attached_to_doctype = docW.doctype ∧ f.attached_to_name = docW.name :=
  attach_pdf_attaches_rendered_pdf envW docW edW [] [1, 2, 3] (by decide) rfl

/-- C2 (amended): `attach_pdf` catches any exception raised during PDF
generation (`TypeError` or any other), logs it, and returns with no `File`
created; `execute` catches only `TypeError` from the beta renderer, logging
it and creating no `File`, while other exceptions propagate out of
`execute`. -/
theorem generation_error_handling_amended :
    (∀ (env : Env) (doc : Doc) (enabled_doctype : EnabledDoctype)
       (rest : List EnabledDoctype) (e : String),
       env.settings.enabled_for.filter (fun ed => ed.document_type == doc.doctype) =
         enabled_doctype :: rest →
       (env.render enabled_doctype.print_format doc enabled_doctype.letter_head =
          RenderResult.typeError e ∨
        env.render enabled_doctype.print_format doc enabled_doctype.letter_head =
          RenderResult.otherError e) →
       savedFiles (attach_pdf env doc) = [] ∧
       ∃ m, Event.logError m ∈ attach_pdf env doc) ∧
    (∀ (env : Env) (dt nm : String) (title lang : Option String) (sp : Bool)
       (an pf lh : Option String) (e : String),
       env.print_format_builder_beta pf = true →
       env.render pf (env.get_doc dt nm) lh = RenderResult.typeError e →
       (execute env dt nm title lang sp an pf lh).2 = Outcome.done ∧
       savedFiles (execute env dt nm title lang sp an pf lh).1 = [] ∧
       Event.logError ("Error generating PDF: " ++ e) ∈
         (execute env dt nm title lang sp an pf lh).1) :=
  ⟨fun env doc ed rest e h1 h2 =>
    attach_pdf_render_error_caught env doc ed rest e h1 h2,
   fun env dt nm title lang sp an pf lh e hb hr =>
    execute_typeError_caught env dt nm title lang sp an pf lh e hb hr⟩

/-- Witness for C2 (amended) at a concrete host whose renderer raises
`TypeError`. -/
theorem generation_error_handling_amended_witness :
    (savedFiles (attach_pdf envTE docW) = [] ∧
      ∃ m, Event.logError m ∈ attach_pdf envTE docW) ∧
    ((execute envTE "DT" "D1" none none true none (some "PF") none).2 = Outcome.done ∧
      savedFiles (execute envTE "DT" "D1" none none true none (some "PF") none).1 = [] ∧
      Event.logError ("Error generating PDF: " ++ "boom") ∈
        (execute envTE "DT" "D1" none none true none (some "PF") none).1) :=
  ⟨generation_error_handling_amended.1 envTE docW edW [] "boom" (by decide) (Or.inl rfl),
   generation_error_handling_amended.2 envTE "DT" "D1" none none true none (some "PF")
     none "boom" rfl rfl⟩

/-- C2 counterexample: an exception that is not a `TypeError`, raised by the
beta renderer inside `execute`, is not caught: the run propagates it instead
of logging and returning normally. -/
theorem generation_error_handling_counterexample :
    (execute envOE "DT" "D1" none none true none (some "PF") none).2 =
      Outcome.raised "boom" ∧
    (execute envOE "DT" "D1" none none true none (some "PF") none).2 ≠
      Outcome.done := by
  decide

/-- C3: with `show_progress = True`, a run of `execute` that completes
without returning early (it reaches the file save) publishes exactly the
progress percents 0, 33, 66, 100, in that strictly increasing order, ending
at 100; with `show_progress = False` no progress event is published on any
path. -/
theorem execute_progress_sequence (env : Env) (dt nm : String)
    (title lang an pf lh : Option String) :
    ((∃ f, Event.saveFile f ∈ (execute env dt nm title lang true an pf lh).1) →
      progressPercents (execute env dt nm title lang true an pf lh).1 =
        [0, 33, 66, 100]) ∧
    progressPercents (execute env dt nm title lang false an pf lh).1 = [] := by
  constructor
  · rintro ⟨f, hf⟩
    rw [← mem_savedFiles] at hf
    rcases execute_run_cases env dt nm title lang true an pf lh with hc | ⟨pdf, _, hp, _, _⟩
    · rw [hc] at hf
      simp at hf
    · simpa using hp
  · exact execute_progress_false env dt nm title lang an pf lh

/-- Witness for C3 at a concrete host where the run completes. -/
theorem execute_progress_sequence_witness :
    progressPercents (execute envW "DT" "D1" none none true none (some "PF") none).1 =
      [0, 33, 66, 100] ∧
    progressPercents (execute envW "DT" "D1" none none false none (some "PF") none).1 =
      [] :=
  ⟨(execute_progress_sequence envW "DT" "D1" none none none (some "PF") none).1
      ⟨builtFile envW [1, 2, 3] "DT" "D1" ("Home" ++ "/" ++ "DT") none, by decide⟩,
   (execute_progress_sequence envW "DT" "D1" none none none (some "PF") none).2⟩

/-- C4 (amended): for every successful run, `attach_pdf` performs
settings-fetch, then render, then save, and creates no folder; `execute`
creates its folders (up to two) first, then renders, then saves, and never
fetches the settings. -/
theorem host_call_order_amended :
    (∀ (env : Env) (doc : Doc) (enabled_doctype : EnabledDoctype)
       (rest : List EnabledDoctype) (pdf : List Nat),
       env.settings.enabled_for.filter (fun ed => ed.document_type == doc.doctype) =
         enabled_doctype :: rest →
       env.render enabled_doctype.print_format doc enabled_doctype.letter_head =
         RenderResult.okSome pdf →
       majorSteps (attach_pdf env doc) = [Step.settings, Step.render, Step.save]) ∧
    (∀ (env : Env) (dt nm : String) (title lang : Option String) (sp : Bool)
       (an pf lh : Option String) (f : FileDoc),
       Event.saveFile f ∈ (execute env dt nm title lang sp an pf lh).1 →
       ∃ n, n ≤ 2 ∧
         majorSteps (execute env dt nm title lang sp an pf lh).1 =
           List.replicate n Step.folder ++ [Step.render, Step.save]) := by
  constructor
  · intro env doc ed rest pdf h1 h2
    simp [attach_pdf, h1, h2]
  · intro env dt nm title lang sp an pf lh f hf
    rw [← mem_savedFiles] at hf
    rcases execute_run_cases env dt nm title lang sp an pf lh with hc | ⟨pdf, _, _, hm, _⟩
    · rw [hc] at hf
      simp at hf
    · exact ⟨execFolderCount env dt title, execFolderCount_le_two env dt title, hm⟩

/-- Witness for C4 (amended) at a concrete host. -/
theorem host_call_order_amended_witness :
    majorSteps (attach_pdf envW docW) = [Step.settings, Step.render, Step.save] ∧
    ∃ n, n ≤ 2 ∧
      majorSteps (execute envW "DT" "D1" none none true none (some "PF") none).1 =
        List.replicate n Step.folder ++ [Step.render, Step.save] :=
  ⟨host_call_order_amended.1 envW docW edW [] [1, 2, 3] (by decide) rfl,
   host_call_order_amended.2 envW "DT" "D1" none none true none (some "PF") none
     (builtFile envW [1, 2, 3] "DT" "D1" ("Home" ++ "/" ++ "DT") none) (by decide)⟩

/-- C4 counterexample: a successful `execute` run creates its folder before
any rendering call and never fetches the settings, contradicting the claimed
order fetch-settings, render, create-folder, save. -/
theorem host_call_order_counterexample :
    (∃ f, Event.saveFile f ∈
      (execute envW "DT" "D1" none none true none (some "PF") none).1) ∧
    majorSteps (execute envW "DT" "D1" none none true none (some "PF") none).1 =
      [Step.folder, Step.render, Step.save] := by
  constructor
  · exact ⟨builtFile envW [1, 2, 3] "DT" "D1" ("Home" ++ "/" ++ "DT") none, by decide⟩
  · decide

/-- C5 (amended): given the same document and the same enabled-doctype
configuration, when the print format uses the builder-beta renderer on both
paths and no Sales-Invoice e-invoice post-processing applies, `attach_pdf`
and `execute` save `File` records with the same PDF content, the same file
name and the same attachment target; the folders they are placed in may
differ. -/
theorem direct_vs_queue_equivalence_amended (env : Env) (doc : Doc)
    (enabled_doctype : EnabledDoctype) (rest : List EnabledDoctype) (pdf : List Nat)
    (title lang : Option String) (sp : Bool)
    (h1 : env.settings.enabled_for.filter (fun ed => ed.document_type == doc.doctype) =
      enabled_doctype :: rest)
    (hdoc : env.get_doc doc.doctype doc.name = doc)
    (hb : env.print_format_builder_beta enabled_doctype.print_format = true)
    (hr : env.render enabled_doctype.print_format doc enabled_doctype.letter_head =
      RenderResult.okSome pdf)
    (hx : (doc.doctype == "Sales Invoice" &&
      env.installed_apps.contains "eu_einvoice") = false) :
    ∃ fA fB,
      savedFiles (attach_pdf env doc) = [fA] ∧
      savedFiles (execute env doc.doctype doc.name title lang sp
        enabled_doctype.auto_name enabled_doctype.print_format
        enabled_doctype.letter_head).1 = [fB] ∧
      fA.content = fB.content ∧ fA.file_name = fB.file_name ∧
      fA.attached_to_doctype = fB.attached_to_doctype ∧
      fA.attached_to_name = fB.attached_to_name := by
  have hr' : env.render enabled_doctype.print_format
      (env.get_doc doc.doctype doc.name) enabled_doctype.letter_head =
      RenderResult.okSome pdf := by
    rw [hdoc]
    exact hr
  refine ⟨builtFile env pdf doc.doctype doc.name
      (enabled_doctype.target_folder.getD "Home") enabled_doctype.auto_name,
    builtFile env pdf doc.doctype doc.name
      (execTargetFolder env doc.doctype title) enabled_doctype.auto_name,
    ?_, ?_, rfl, rfl, rfl, rfl⟩
  · simp [attach_pdf, h1, hr]
  · cases ht : pyTruthy title <;>
      simp [execute, hb, hr', ht, execTargetFolder,
        einvoiceStep_snd_off env doc.doctype doc.name sp pdf hx]

/-- Witness for C5 (amended) at a concrete host. -/
theorem direct_vs_queue_equivalence_amended_witness :
    ∃ fA fB,
      savedFiles (attach_pdf envW docW) = [fA] ∧
      savedFiles (execute envW docW.doctype docW.name none none true
        edW.auto_name edW.print_format edW.letter_head).1 = [fB] ∧
      fA.content = fB.content ∧ fA.file_name = fB.file_name ∧
      fA.attached_to_doctype = fB.attached_to_doctype ∧
      fA.attached_to_name = fB.attached_to_name :=
  direct_vs_queue_equivalence_amended envW docW edW [] [1, 2, 3] none none true
    (by decide) rfl rfl rfl (by decide)

/-- C5 counterexample: when the print format does not use the builder-beta
renderer, `execute` produces the PDF via `get_print`/`get_pdf` while
`attach_pdf` always uses `PrintFormatGenerator`; on `envC5` the two paths
attach files with the same name and the same target but different PDF
content. -/
theorem direct_vs_queue_equivalence_counterexample :
    (savedFiles (attach_pdf envC5 docW)).map FileDoc.content = [[1]] ∧
    (savedFiles (execute envC5 "DT" "D1" none none false none
      (some "PF") none).1).map FileDoc.content = [[2]] ∧
    (savedFiles (attach_pdf envC5 docW)).map FileDoc.file_name =
      (savedFiles (execute envC5 "DT" "D1" none none false none
        (some "PF") none).1).map FileDoc.file_name ∧
    (savedFiles (attach_pdf envC5 docW)).map FileDoc.attached_to_name =
      (savedFiles (execute envC5 "DT" "D1" none none false none
        (some "PF") none).1).map FileDoc.attached_to_name := by
  decide

/-- C6: `get_pdf_data` renders through the two-stage pipeline
Document -> HTML -> PDF: whenever the host's `get_print` returns HTML for
the document and print format, the result equals `get_pdf` applied to that
HTML. -/
theorem get_pdf_data_pipeline (env : Env) (dt nm : String) (pf lh : Option String)
    (html : String) (h : env.get_print dt nm pf lh = Except.ok html) :
    (get_pdf_data env dt nm pf lh).2 = env.get_pdf html := by
  rcases hg : env.get_pdf html with e | pdf <;> simp [get_pdf_data, h, hg]

/-- Witness for C6 at a concrete host. -/
theorem get_pdf_data_pipeline_witness :
    (get_pdf_data envW "DT" "D1" (some "PF") none).2 = envW.get_pdf "html" :=
  get_pdf_data_pipeline envW "DT" "D1" (some "PF") none "html" rfl

/-- C7: every `File` record created by `save_and_attach` is public: its
`is_private` field is 0 regardless of content, target document, folder or
`auto_name`. -/
theorem save_and_attach_public (env : Env) (content : List Nat)
    (to_doctype to_name folder : String) (auto_name : Option String) (f : FileDoc)
    (h : Event.saveFile f ∈ save_and_attach env content to_doctype to_name folder
      auto_name) :
    f.is_private = 0 := by
  simp [save_and_attach] at h
  subst h
  rfl

/-- Witness for C7 at a concrete input. -/
theorem save_and_attach_public_witness :
    (builtFile envW [7] "DT" "D1" "Home" none).is_private = 0 :=
  save_and_attach_public envW [7] "DT" "D1" "Home" none
    (builtFile envW [7] "DT" "D1" "Home" none) (by decide)

/-- C8: the file name of the `File` record created by `save_and_attach`
ends in `.pdf` and its base part contains no `/`: the base is exactly the
chosen base name (autoname-derived when `auto_name` is truthy, else the
document name) with every `/` replaced by `-`. -/
theorem save_and_attach_file_name_shape (env : Env) (content : List Nat)
    (to_doctype to_name folder : String) (auto_name : Option String) (f : FileDoc)
    (h : Event.saveFile f ∈ save_and_attach env content to_doctype to_name folder
      auto_name) :
    ∃ base, f.file_name = base ++ ".pdf" ∧ '/' ∉ base.data ∧
      base = pyReplaceSlashDash (chosen_base_name env to_doctype to_name auto_name) := by
  simp [save_and_attach] at h
  subst h
  exact ⟨pyReplaceSlashDash (chosen_base_name env to_doctype to_name auto_name), rfl,
    pyReplaceSlashDash_no_slash _, rfl⟩

/-- Witness for C8 at a concrete input whose document name contains a
slash. -/
theorem save_and_attach_file_name_shape_witness :
    ∃ base, (builtFile envW [7] "DT" "A/B" "Home" none).file_name = base ++ ".pdf" ∧
      '/' ∉ base.data ∧
      base = pyReplaceSlashDash (chosen_base_name envW "DT" "A/B" none) :=
  save_and_attach_file_name_shape envW [7] "DT" "A/B" "Home" none
    (builtFile envW [7] "DT" "A/B" "Home" none) (by decide)

/-- C9: if no `enabled_for` row matches the document's doctype, `attach_pdf`
logs an error and returns without raising: its whole trace is the settings
fetch plus one error log, so it never invokes the PDF renderer and creates
no `File` record. -/
theorem attach_pdf_no_enabled_doctype (env : Env) (doc : Doc)
    (h : env.settings.enabled_for.filter (fun ed => ed.document_type == doc.doctype) =
      []) :
    attach_pdf env doc =
      [Event.fetchSettings,
       Event.logError ("No enabled doctype found for " ++ doc.doctype)] ∧
    (∀ pf d lh, Event.renderPdf pf d lh ∉ attach_pdf env doc) ∧
    savedFiles (attach_pdf env doc) = [] := by
  have he : attach_pdf env doc =
      [Event.fetchSettings,
       Event.logError ("No enabled doctype found for " ++ doc.doctype)] := by
    simp [attach_pdf, h]
  refine ⟨he, ?_, ?_⟩ <;> simp [he]

/-- Witness for C9 at a concrete host with a doctype that has no enabled
entry. -/
theorem attach_pdf_no_enabled_doctype_witness :
    attach_pdf envW { doctype := "Other", name := "D2" } =
      [Event.fetchSettings,
       Event.logError ("No enabled doctype found for " ++ "Other")] ∧
    (∀ pf d lh, Event.renderPdf pf d lh ∉
      attach_pdf envW { doctype := "Other", name := "D2" }) ∧
    savedFiles (attach_pdf envW { doctype := "Other", name := "D2" }) = [] :=
  attach_pdf_no_enabled_doctype envW { doctype := "Other", name := "D2" } (by decide)

end PdfOnSubmit
